import Mathlib

/-!
Shallow embedding of the Jablotron JA-100 Home Assistant integration
(`custom_components/jablotron100/jablotron.py`) and a verification of the
specification's claims about it.

Modelling conventions:
* Python `bytes` values are `List Nat`, each element a byte value `< 256`
  where the source guarantees it (slicing never fails, so list `take`/`drop`
  model Python slices exactly, including short or empty results).
* `int.from_bytes(..., byteorder=sys.byteorder)` and
  `int.to_bytes(..., byteorder=sys.byteorder)` use the platform's native byte
  order; on every platform this integration targets (x86, ARM) that order is
  little-endian, so the embedding fixes little-endian.
* Fallible Python code (raising `OverflowError`, `ValueError`, `KeyError`,
  `TypeError`, `UnicodeDecodeError`) is embedded as `Option`, `none` being
  the raised exception.
* Machine integers are `Nat`/`Int`; Python integers are unbounded, so no
  wrap-around modelling is needed.
-/

namespace Jablotron100

/-- A Python runtime value that is either a `bytes` object or a `str` object.
Used to embed the source's comparison of a bytes slice against a string
literal with Python 3 semantics. -/
inductive PyVal where
  | pybytes (bs : List Nat)
  | pystr (s : String)
deriving DecidableEq

/-- Python 3 equality between `bytes` and `str` values: values of the two
distinct types never compare equal (`bytes.__eq__(str)` returns
`NotImplemented`, and `==` then falls back to identity, yielding `False`). -/
def pyEq : PyVal → PyVal → Bool
  | .pybytes a, .pybytes b => a == b
  | .pystr a, .pystr b => a == b
  | .pybytes _, .pystr _ => false
  | .pystr _, .pybytes _ => false

/-- Home Assistant constant `STATE_ON` (external dependency `homeassistant.const`). -/
def STATE_ON : String := "on"

/-- Home Assistant constant `STATE_OFF`. -/
def STATE_OFF : String := "off"

/-- Home Assistant constant `STATE_ALARM_DISARMED`. -/
def STATE_ALARM_DISARMED : String := "disarmed"

/-- Home Assistant constant `STATE_ALARM_ARMED_AWAY`. -/
def STATE_ALARM_ARMED_AWAY : String := "armed_away"

/-- Home Assistant constant `STATE_ALARM_ARMED_NIGHT`. -/
def STATE_ALARM_ARMED_NIGHT : String := "armed_night"

/-- Home Assistant constant `STATE_ALARM_ARMING`. -/
def STATE_ALARM_ARMING : String := "arming"

/-- Home Assistant constant `STATE_ALARM_PENDING`. -/
def STATE_ALARM_PENDING : String := "pending"

/-- Home Assistant constant `STATE_ALARM_TRIGGERED`. -/
def STATE_ALARM_TRIGGERED : String := "triggered"

/-- Source constant `JABLOTRON_PRIMARY_STATE_DISARMED = 1`. -/
def JABLOTRON_PRIMARY_STATE_DISARMED : Nat := 1

/-- Source constant `JABLOTRON_PRIMARY_STATE_ARMED_PARTIALLY = 2`. -/
def JABLOTRON_PRIMARY_STATE_ARMED_PARTIALLY : Nat := 2

/-- Source constant `JABLOTRON_PRIMARY_STATE_ARMED_FULL = 3`. -/
def JABLOTRON_PRIMARY_STATE_ARMED_FULL : Nat := 3

/-- Source constant `JABLOTRON_SECONDARY_STATE_OK = 0`. -/
def JABLOTRON_SECONDARY_STATE_OK : Nat := 0

/-- Source constant `JABLOTRON_SECONDARY_STATE_TRIGGERED = 1`. -/
def JABLOTRON_SECONDARY_STATE_TRIGGERED : Nat := 1

/-- Source constant `JABLOTRON_SECONDARY_STATE_PROBLEM = 2`. -/
def JABLOTRON_SECONDARY_STATE_PROBLEM : Nat := 2

/-- Source constant `JABLOTRON_SECONDARY_STATE_PENDING = 4`. -/
def JABLOTRON_SECONDARY_STATE_PENDING : Nat := 4

/-- Source constant `JABLOTRON_SECONDARY_STATE_ARMING = 8`. -/
def JABLOTRON_SECONDARY_STATE_ARMING : Nat := 8

/-- Source constant `JABLOTRON_TERTIARY_STATE_OFF = 0`. -/
def JABLOTRON_TERTIARY_STATE_OFF : Nat := 0

/-- Source constant `JABLOTRON_TERTIARY_STATE_ON = 1`. -/
def JABLOTRON_TERTIARY_STATE_ON : Nat := 1

/-- `Jablotron._bytes_to_int`: `int.from_bytes(packet, byteorder=sys.byteorder)`.
Native byte order is little-endian on the platforms this integration runs on. -/
def bytes_to_int : List Nat → Nat
  | [] => 0
  | b :: rest => b + 256 * bytes_to_int rest

/-- `Jablotron._int_to_bytes`: `int.to_bytes(number, 1, byteorder=sys.byteorder)`.
A single byte, so byte order is irrelevant; `to_bytes` raises `OverflowError`
(here `none`) unless `0 ≤ number ≤ 255`. -/
def int_to_bytes (number : Int) : Option (List Nat) :=
  if 0 ≤ number ∧ number ≤ 255 then some [number.toNat] else none

/-- Binary digits of a natural number, least significant bit first, minimal
length (`[]` for `0`); the first argument is recursion fuel (any amount
`≥ n` yields the digits of `n`). Helper for embedding Python's `bin`. -/
def lsb_bits_go : Nat → Nat → List Bool
  | 0, _ => []
  | fuel + 1, n => if n = 0 then [] else decide (n % 2 = 1) :: lsb_bits_go fuel (n / 2)

/-- Binary digits of a natural number, least significant bit first, minimal
length (`[]` for `0`). -/
def lsb_bits (n : Nat) : List Bool := lsb_bits_go n n

/-- Python `bin(n)[2:]` for `n ≥ 0`: the minimal-length binary rendering of
`n`, most significant bit first, with `bin(0)[2:] = "0"`. -/
def py_bin (n : Nat) : List Char :=
  if n = 0 then ['0'] else ((lsb_bits n).reverse).map (fun b => if b then '1' else '0')

/-- Python `str.zfill(width)` on a digit string: left-pad with `'0'` to
`width` characters (never truncates). -/
def zfill (width : Nat) (s : List Char) : List Char :=
  List.replicate (width - s.length) '0' ++ s

/-- `Jablotron._hex_to_bin`: decode a byte range to an integer, render it in
binary, left-pad with zeros to `8 * len` characters and reverse the string. -/
def hex_to_bin (hex : List Nat) : List Char :=
  (zfill (hex.length * 8) (py_bin (bytes_to_int hex))).reverse

/-- Modelled from the spec's words (for comparison with `hex_to_bin`):
"interpret the byte range as a big-endian unsigned integer, render as binary,
left-pad with zeros to `8 * byteLength` bits, then reverse the bit string". -/
def spec_hex_to_bin_big_endian (hex : List Nat) : List Char :=
  (zfill (hex.length * 8) (py_bin (bytes_to_int hex.reverse))).reverse

/-- The two status bytes of section slot `section` inside a section-states
reply packet: `packet[2 * section : 2 * section + 2]`. -/
def section_state_slice (packet : List Nat) (sectionNumber : Nat) : List Nat :=
  (packet.drop (2 * sectionNumber)).take 2

/-- Loop body of `Jablotron._parse_sections_states_packet`: scan `fuel`
consecutive slots starting at slot `section`, stopping at the first
`07 00` sentinel. An insertion-ordered association list models the Python
dict keyed by consecutive integers. -/
def parse_sections_states_go (packet : List Nat) : Nat → Nat → List (Nat × List Nat)
  | 0, _ => []
  | fuel + 1, sectionNumber =>
    if section_state_slice packet sectionNumber = [0x07, 0x00] then []
    else (sectionNumber, section_state_slice packet sectionNumber) ::
      parse_sections_states_go packet fuel (sectionNumber + 1)

/-- `Jablotron._parse_sections_states_packet`. The loop bound `MAX_SECTIONS`
is imported from `const.py`, which is not part of the provided sources, so it
is kept as the parameter `maxSections` (modelled from the spec: "up to a
maximum section count"). The source iterates `section` over
`range(1, MAX_SECTIONS + 1)`. -/
def parse_sections_states_packet (maxSections : Nat) (packet : List Nat) :
    List (Nat × List Nat) :=
  parse_sections_states_go packet maxSections 1

/-- The slot index of the first `07 00` sentinel pair of a packet, if any
(slot `s` occupies bytes `2*s .. 2*s+1`; slots beyond the packet end yield
short slices and can never equal the sentinel). -/
def first_sentinel_slot (packet : List Nat) : Option Nat :=
  (List.range' 1 packet.length).find?
    (fun s => section_state_slice packet s == [0x07, 0x00])

/-- The three decoded fields of a section status byte pair (the Python dict
returned by `Jablotron._parse_jablotron_alarm_state`). -/
structure JablotronAlarmState where
  primary : Nat
  secondary : Nat
  tertiary : Nat
deriving DecidableEq

/-- `Jablotron._parse_jablotron_alarm_state`, including the "strange packet"
special case. The source compares the bytes slice `packet[0:1]` against the
*string* literal `"\x1b"`; under Python 3 semantics that comparison is always
false (`pyEq` on mixed types), so the branch is dead. Had the branch been
taken, it would rebind `first_packet` to the string `"\x13"` and the
subsequent `int.from_bytes` call would raise `TypeError`, embedded as
`none`. -/
def parse_jablotron_alarm_state (packet : List Nat) : Option JablotronAlarmState :=
  if pyEq (.pybytes (packet.take 1)) (.pystr "\x1b") then
    none
  else
    let number := bytes_to_int (packet.take 1)
    let primary_state := number % 16
    let secondary_state := (number - primary_state) / 16
    some { primary := primary_state
           secondary := secondary_state
           tertiary := bytes_to_int ((packet.drop 1).take 1) }

/-- `Jablotron._parse_jablotron_alarm_state` with the dead "strange packet"
branch removed. -/
def parse_jablotron_alarm_state_without_branch (packet : List Nat) :
    JablotronAlarmState :=
  let number := bytes_to_int (packet.take 1)
  let primary_state := number % 16
  let secondary_state := (number - primary_state) / 16
  { primary := primary_state
    secondary := secondary_state
    tertiary := bytes_to_int ((packet.drop 1).take 1) }

/-- `Jablotron._convert_jablotron_alarm_state_to_alarm_state`: the first-match
precedence ladder over the parsed section state. -/
def convert_jablotron_alarm_state_to_alarm_state (packet : List Nat) : Option String :=
  (parse_jablotron_alarm_state packet).map fun state =>
    if state.secondary = JABLOTRON_SECONDARY_STATE_ARMING then STATE_ALARM_ARMING
    else if state.secondary = JABLOTRON_SECONDARY_STATE_PENDING then STATE_ALARM_PENDING
    else if state.secondary = JABLOTRON_SECONDARY_STATE_TRIGGERED then STATE_ALARM_TRIGGERED
    else if state.primary = JABLOTRON_PRIMARY_STATE_ARMED_FULL then
      (if state.tertiary = JABLOTRON_TERTIARY_STATE_ON then STATE_ALARM_TRIGGERED
       else STATE_ALARM_ARMED_AWAY)
    else if state.primary = JABLOTRON_PRIMARY_STATE_ARMED_PARTIALLY then STATE_ALARM_ARMED_NIGHT
    else STATE_ALARM_DISARMED

/-- `Jablotron._convert_jablotron_alarm_state_to_problem_sensor_state`. -/
def convert_jablotron_alarm_state_to_problem_sensor_state (packet : List Nat) :
    Option String :=
  (parse_jablotron_alarm_state packet).map fun state =>
    if state.secondary = JABLOTRON_SECONDARY_STATE_PROBLEM then STATE_ON else STATE_OFF

/-- Modelled from the spec's words (for comparison with the source decoder):
the first-match precedence table of section 4.4 applied to the byte pair
`(stateByte, tertiaryByte)` with `primary = stateByte mod 16`,
`secondary = (stateByte - primary) / 16`, `tertiary = tertiaryByte`. -/
def spec_alarm_precedence (stateByte tertiaryByte : Nat) : String :=
  let primary := stateByte % 16
  let secondary := (stateByte - primary) / 16
  if secondary = JABLOTRON_SECONDARY_STATE_ARMING then STATE_ALARM_ARMING
  else if secondary = JABLOTRON_SECONDARY_STATE_PENDING then STATE_ALARM_PENDING
  else if secondary = JABLOTRON_SECONDARY_STATE_TRIGGERED then STATE_ALARM_TRIGGERED
  else if primary = JABLOTRON_PRIMARY_STATE_ARMED_FULL then
    (if tertiaryByte = JABLOTRON_TERTIARY_STATE_ON then STATE_ALARM_TRIGGERED
     else STATE_ALARM_ARMED_AWAY)
  else if primary = JABLOTRON_PRIMARY_STATE_ARMED_PARTIALLY then STATE_ALARM_ARMED_NIGHT
  else STATE_ALARM_DISARMED

/-- `Jablotron._parse_device_number_from_state_packet`:
`int(bytes_to_int(packet[4:6]) / 64)`. The float division is exact for all
16-bit values (a 16-bit mantissa divided by a power of two is representable),
so `int(v / 64)` equals the integer quotient `v / 64`. -/
def parse_device_number_from_state_packet (packet : List Nat) : Nat :=
  bytes_to_int ((packet.drop 4).take 2) / 64

/-- `Jablotron._convert_jablotron_device_state_to_state`. The offsets are
Python ints and may be negative for device numbers just above 32, so the
comparison arithmetic is carried out in `Int`. -/
def convert_jablotron_device_state_to_state (packet : List Nat)
    (device_number : Nat) : Option String :=
  let state : Int := (bytes_to_int ((packet.drop 3).take 1) : Int)
  let high_device_number_offset : Int :=
    if device_number ≤ 32 then 0
    else if device_number ≤ 96 then -64
    else -128
  let device_states_offset : Int :=
    ((device_number : Int) + high_device_number_offset) * 4 + 104
  let on_state := device_states_offset
  let on_state_2 := device_states_offset + 1
  let off_state := device_states_offset + 2
  if state = off_state then some STATE_OFF
  else if state = on_state ∨ state = on_state_2 then some STATE_ON
  else none

/-- `Jablotron._convert_jablotron_device_state_to_problem_sensor_state`:
`packet[2:3] in [b"\x05", b"\x06", b"\x86", b"\xa8"]`. -/
def convert_jablotron_device_state_to_problem_sensor_state (packet : List Nat) :
    String :=
  if (packet.drop 2).take 1 ∈ [[0x05], [0x06], [0x86], [0xa8]] then STATE_ON
  else STATE_OFF

/-- `Jablotron._create_section_alarm_id`. -/
def create_section_alarm_id (sectionNumber : Nat) : String :=
  "section_" ++ Nat.repr sectionNumber

/-- `Jablotron._create_section_problem_sensor_id`. -/
def create_section_problem_sensor_id (sectionNumber : Nat) : String :=
  "section_problem_sensor_" ++ Nat.repr sectionNumber

/-- `Jablotron._create_device_sensor_id`. -/
def create_device_sensor_id (number : Nat) : String :=
  "device_sensor_" ++ Nat.repr number

/-- `Jablotron._create_device_problem_sensor_id`. -/
def create_device_problem_sensor_id (number : Nat) : String :=
  "device_problem_sensor_" ++ Nat.repr number

/-- Lookup in the insertion-ordered association list that models the Python
dict `self.states`. -/
def lookupState : List (String × String) → String → Option String
  | [], _ => none
  | (k, v) :: rest, id => if k = id then some v else lookupState rest id

/-- Assignment `states[id] = v` on the association list modelling a Python
dict: overwrite the existing binding or append a new one. -/
def setState : List (String × String) → String → String → List (String × String)
  | [], id, v => [(id, v)]
  | (k, w) :: rest, id, v =>
    if k = id then (k, v) :: rest else (k, w) :: setState rest id v

/-- The mutable state owned by the `Jablotron` object that `_update_state`
touches: the `self.states` dict, the set of subscribed entity ids
(`self._entities`), and the ordered log of listener invocations
(`async_write_ha_state` calls), which models the observable notifications. -/
structure StateStore where
  states : List (String × String)
  entities : List String
  notifications : List String
deriving DecidableEq

/-- `Jablotron._update_state`: return unchanged when `id` is present with the
same value; otherwise store the value and, when the id has a subscribed
entity, invoke its listener (recorded by appending to `notifications`). -/
def update_state (st : StateStore) (id state : String) : StateStore :=
  if lookupState st.states id = some state then st
  else
    { states := setState st.states id state
      entities := st.entities
      notifications :=
        if id ∈ st.entities then st.notifications ++ [id] else st.notifications }

/-- `Jablotron._parse_device_state_packet`: update the device problem sensor,
then the device sensor when the state code decodes; an unknown state code is
only logged and leaves the device sensor untouched. -/
def parse_device_state_packet (st : StateStore) (packet : List Nat) : StateStore :=
  let device_number := parse_device_number_from_state_packet packet
  let device_state := convert_jablotron_device_state_to_state packet device_number
  let device_problem_sensor_state :=
    convert_jablotron_device_state_to_problem_sensor_state packet
  let st := update_state st (create_device_problem_sensor_id device_number)
    device_problem_sensor_state
  match device_state with
  | some s => update_state st (create_device_sensor_id device_number) s
  | none => st

/-- `Jablotron._is_small_central_unit`: `re.match(r"JA-10[13]", model)`, an
anchored match of the six-character pattern at the start of the model
string. -/
def is_small_central_unit (model : String) : Bool :=
  model.toList.take 6 == "JA-101".toList || model.toList.take 6 == "JA-103".toList

/-- Python `int(c)` on a single character: the digit value for `'0'..'9'`,
`ValueError` (here `none`) otherwise. -/
def py_int_of_char (c : Char) : Option Nat :=
  if 48 ≤ c.toNat ∧ c.toNat ≤ 57 then some (c.toNat - 48) else none

/-- `Jablotron._create_code_packet`: the family-dependent code packet header
followed by `int_to_bytes (48 + int(digit))` for each character of the access
code. -/
def create_code_packet (model : String) (code : String) : Option (List Nat) :=
  code.toList.foldl
    (fun acc c =>
      acc.bind fun a =>
        (py_int_of_char c).bind fun d =>
          (int_to_bytes (48 + (d : Int))).map fun b => a ++ b)
    (some (if is_small_central_unit model then [0x80, 0x08, 0x03, 0x39, 0x39, 0x39]
           else [0x80, 0x08, 0x03, 0x30]))

/-- The `int_packets` dict of `Jablotron.modify_alarm_control_panel_section_state`;
a missing key raises `KeyError` (here `none`). -/
def int_packets (state : String) : Option Nat :=
  if state = STATE_ALARM_DISARMED then some 143
  else if state = STATE_ALARM_ARMED_AWAY then some 159
  else if state = STATE_ALARM_ARMED_NIGHT then some 175
  else none

/-- `Jablotron.modify_alarm_control_panel_section_state`: fall back to the
configured password when no code override is given, build the one-byte state
packet, then send the code packet followed by `80 02 0d` and the state byte.
The returned value is the byte sequence handed to `_send_packet`. -/
def modify_alarm_control_panel_section_state (configCode model : String)
    (sectionNumber : Nat) (state : String) (code : Option String) : Option (List Nat) :=
  let code := code.getD configCode
  (int_packets state).bind fun base =>
    (int_to_bytes ((base : Int) + (sectionNumber : Int))).bind fun state_packet =>
      (create_code_packet model code).map fun code_packet =>
        code_packet ++ [0x80, 0x02, 0x0d] ++ state_packet

/-- `decode_info_bytes`: accumulate single-byte UTF-8 decodes until the first
NUL byte; a byte `≥ 0x80` makes the single-byte `decode()` raise
`UnicodeDecodeError`, embedded as `none`. -/
def decode_info_bytes : List Nat → Option String
  | [] => some ""
  | b :: rest =>
    if b = 0 then some ""
    else if 128 ≤ b then none
    else (decode_info_bytes rest).map fun s => String.mk (Char.ofNat b :: s.data)

/-- The reader thread of `check_serial_port`, applied to the finite sequence
of packets that arrive before the overall timeout: it returns the first
successfully decoded model string from a `40 .. 02` info packet, skipping
packets whose payload fails to decode, and never returns otherwise (it keeps
blocking on `stream.read`). -/
def reader_first_model : List (List Nat) → Option String
  | [] => none
  | p :: rest =>
    if p.take 1 = [0x40] ∧ (p.drop 2).take 1 = [0x02] then
      match decode_info_bytes (p.drop 3) with
      | some m => some m
      | none => reader_first_model rest
    else reader_first_model rest

/-- `re.match(r"JA-10[1367]", model)`: the model string begins with one of the
four supported family identifiers. -/
def model_supported (model : String) : Bool :=
  model.toList.take 6 == "JA-101".toList || model.toList.take 6 == "JA-103".toList ||
  model.toList.take 6 == "JA-106".toList || model.toList.take 6 == "JA-107".toList

/-- The observable outcome of `check_serial_port`. `timeoutError` is the
`concurrent.futures` timeout raised by `reader.result(TIMEOUT)`; on the
Python versions contemporary with this code (before 3.11) that exception is
not a subclass of any member of the `except` tuple
`(IndexError, FileNotFoundError, IsADirectoryError, UnboundLocalError,
OSError)` and therefore propagates as-is. `modelNotDetected` exists in the
source (`raise ModelNotDetected`) but is reachable only if the reader future
*returns* `None`, which cannot happen: the reader loops until it finds a
model or its call raises. -/
inductive CheckOutcome where
  | ok
  | modelNotDetected
  | modelNotSupported
  | serviceUnavailable
  | timeoutError
deriving DecidableEq

/-- `check_serial_port`, sequentialized: `ioFailure` is true when opening,
reading or writing the port raises one of the caught I/O exceptions (the
reader future then re-raises it inside `reader.result`); `packets` is the
sequence of packets the reader sees before the 10 s timeout. When no model
is decoded from them the reader is still blocked when the timeout expires,
so `reader.result(TIMEOUT)` raises the executor timeout error and the
`model is None` check — and with it `raise ModelNotDetected` — is never
reached. -/
def check_serial_port (ioFailure : Bool) (packets : List (List Nat)) : CheckOutcome :=
  if ioFailure then CheckOutcome.serviceUnavailable
  else
    match reader_first_model packets with
    | none => CheckOutcome.timeoutError
    | some m =>
      if model_supported m then CheckOutcome.ok else CheckOutcome.modelNotSupported


/-! ## Helper lemmas about the state store -/

theorem lookupState_setState_self (l : List (String × String)) (id v : String) :
    lookupState (setState l id v) id = some v := by
  induction l with
  | nil => simp [setState, lookupState]
  | cons kv rest ih =>
    obtain ⟨k, w⟩ := kv
    by_cases h : k = id
    · simp [setState, h, lookupState]
    · simp [setState, h, lookupState, ih]

theorem lookupState_setState_other (l : List (String × String)) (id v k : String)
    (h : k ≠ id) :
    lookupState (setState l id v) k = lookupState l k := by
  induction l with
  | nil =>
    simp only [setState, lookupState]
    rw [if_neg (Ne.symm h)]
  | cons kv rest ih =>
    obtain ⟨k', w⟩ := kv
    by_cases h' : k' = id
    · subst h'
      simp [setState, lookupState, Ne.symm h]
    · simp [setState, h', lookupState, ih]

/-! ## C7: idempotence of `_update_state` -/

/-- C7 (counterexample): the claim "applying the same state value twice
invokes the subscribed listener exactly once" is false when the applied value
equals the one already stored: for the store mapping `a ↦ on` with `a`
subscribed, applying `("a", "on")` twice invokes the listener zero times,
not once. -/
theorem C7_counterexample :
    ¬ ((update_state (update_state ⟨[("a", "on")], ["a"], []⟩ "a" "on")
        "a" "on").notifications.length = 1) := by
  decide

/-- C7 (amended): for every store and every id and value, the second
application of the same value is a no-op (the store after the second
application is identical to the store after the first), and the two
applications together invoke the listener exactly once when the id is
subscribed and the value differs from the one currently stored, and zero
times otherwise — never on the second application. -/
theorem C7_update_state_idempotent (st : StateStore) (id v : String) :
    update_state (update_state st id v) id v = update_state st id v ∧
    (update_state st id v).notifications =
      st.notifications ++
        (if lookupState st.states id = some v ∨ id ∉ st.entities then [] else [id]) := by
  constructor
  · by_cases h : lookupState st.states id = some v
    · simp [update_state, h]
    · have h1 : update_state st id v =
          { states := setState st.states id v
            entities := st.entities
            notifications :=
              if id ∈ st.entities then st.notifications ++ [id] else st.notifications } := by
        simp [update_state, h]
      rw [h1]
      simp [update_state, lookupState_setState_self]
  · by_cases h : lookupState st.states id = some v
    · simp [update_state, h]
    · by_cases hm : id ∈ st.entities
      · simp [update_state, h, hm]
      · simp [update_state, h, hm]

/-! ## C8: the "strange packet" branch is dead -/

/-- C8: the special-case branch of `_parse_jablotron_alarm_state` that
compares the bytes slice `packet[0:1]` against the string literal
`"\x1b"` can never be taken (in Python 3 a `bytes` value never equals a
`str` value), so the parse function is extensionally equal to the same
function with the branch removed. -/
theorem C8_strange_branch_never_taken :
    parse_jablotron_alarm_state =
      fun packet => some (parse_jablotron_alarm_state_without_branch packet) := rfl

/-! ## C1: section status byte pair decoding -/

/-- C1: for every section status byte pair `(stateByte, tertiaryByte)` (the
first two bytes handed to the decoder; further bytes are ignored), the
decoder computes `primary = stateByte mod 16`,
`secondary = (stateByte - primary) / 16` and `tertiary = tertiaryByte`, the
externally visible alarm state is the spec's first-match precedence applied
to the pair, and in particular the pair `(0x23, 0x00)` decodes to alarm
state "armed_away" with section problem-sensor state "on". -/
theorem C1_section_state_decoding (s t : Nat) (rest : List Nat) :
    parse_jablotron_alarm_state (s :: t :: rest) =
      some { primary := s % 16, secondary := (s - s % 16) / 16, tertiary := t } ∧
    convert_jablotron_alarm_state_to_alarm_state (s :: t :: rest) =
      some (spec_alarm_precedence s t) ∧
    convert_jablotron_alarm_state_to_alarm_state [0x23, 0x00] =
      some STATE_ALARM_ARMED_AWAY ∧
    convert_jablotron_alarm_state_to_problem_sensor_state [0x23, 0x00] =
      some STATE_ON := by
  refine ⟨rfl, rfl, by decide, by decide⟩

/-! ## C4: code packet encoding -/

theorem create_code_packet_fold (cs : List Char) (a : List Nat)
    (h : ∀ c ∈ cs, 48 ≤ c.toNat ∧ c.toNat ≤ 57) :
    cs.foldl
      (fun acc c =>
        acc.bind fun a =>
          (py_int_of_char c).bind fun d =>
            (int_to_bytes (48 + (d : Int))).map fun b => a ++ b)
      (some a) = some (a ++ cs.map Char.toNat) := by
  induction cs generalizing a with
  | nil => simp
  | cons c cs ih =>
    obtain ⟨h1, h2⟩ := h c (List.mem_cons_self c cs)
    have hd : py_int_of_char c = some (c.toNat - 48) := by
      simp [py_int_of_char, h1, h2]
    have hb : int_to_bytes (48 + ((c.toNat - 48 : Nat) : Int)) = some [c.toNat] := by
      unfold int_to_bytes
      rw [if_pos (by omega)]
      have he : (48 + ((c.toNat - 48 : Nat) : Int)) = ((c.toNat : Nat) : Int) := by omega
      rw [he]
      simp
    rw [List.foldl_cons]
    have hstep :
        (some a).bind (fun a =>
          (py_int_of_char c).bind fun d =>
            (int_to_bytes (48 + (d : Int))).map fun b => a ++ b) =
          some (a ++ [c.toNat]) := by
      simp [hd, hb]
    rw [hstep, ih (a ++ [c.toNat]) (fun x hx => h x (List.mem_cons_of_mem c hx))]
    simp

/-- C4: for every access code consisting of decimal digits, the encoded code
packet is the header `80 08 03 39 39 39` when the central-unit model belongs
to a short-addressing family (`JA-101`/`JA-103`) and `80 08 03 30` otherwise,
followed by one byte of value `48 + digit` per digit; in particular the code
"1234" yields `80 08 03 39 39 39 31 32 33 34` on a short-address family and
`80 08 03 30 31 32 33 34` on a standard family. -/
theorem C4_code_packet_encoding (model code : String)
    (h : ∀ c ∈ code.toList, 48 ≤ c.toNat ∧ c.toNat ≤ 57) :
    create_code_packet model code =
      some ((if is_small_central_unit model then [0x80, 0x08, 0x03, 0x39, 0x39, 0x39]
             else [0x80, 0x08, 0x03, 0x30]) ++
        code.toList.map (fun c => 48 + (c.toNat - 48))) ∧
    create_code_packet "JA-101" "1234" =
      some [0x80, 0x08, 0x03, 0x39, 0x39, 0x39, 0x31, 0x32, 0x33, 0x34] ∧
    create_code_packet "JA-106" "1234" =
      some [0x80, 0x08, 0x03, 0x30, 0x31, 0x32, 0x33, 0x34] := by
  refine ⟨?_, by decide, by decide⟩
  unfold create_code_packet
  rw [create_code_packet_fold code.toList _ h]
  have hmap : code.toList.map (fun c => 48 + (c.toNat - 48)) =
      code.toList.map Char.toNat := by
    apply List.map_congr_left
    intro c hc
    have := h c hc
    omega
  rw [hmap]

/-- C4 (witness): the general encoding theorem applied to the code "1234" on
the model "JA-101". -/
theorem C4_code_packet_encoding_witness :
    create_code_packet "JA-101" "1234" =
      some ((if is_small_central_unit "JA-101" then [0x80, 0x08, 0x03, 0x39, 0x39, 0x39]
             else [0x80, 0x08, 0x03, 0x30]) ++
        ("1234" : String).toList.map (fun c => 48 + (c.toNat - 48))) :=
  (C4_code_packet_encoding "JA-101" "1234" (by decide)).1

/-! ## C5 and C10: the arm/disarm command -/

theorem int_to_bytes_nat_of_le (base sectionNumber : Nat)
    (h : base + sectionNumber ≤ 255) :
    int_to_bytes ((base : Int) + (sectionNumber : Int)) =
      some [base + sectionNumber] := by
  unfold int_to_bytes
  rw [if_pos (by omega)]
  have he : ((base : Int) + (sectionNumber : Int)).toNat = base + sectionNumber := by
    omega
  rw [he]

theorem int_to_bytes_nat_of_gt (base sectionNumber : Nat)
    (h : 255 < base + sectionNumber) :
    int_to_bytes ((base : Int) + (sectionNumber : Int)) = none := by
  unfold int_to_bytes
  rw [if_neg (by omega)]

/-- C5 (counterexample): the claim that no code packet precedes the command
when a code override is supplied is false: with configured code "1111" and
override "4321", disarming section 1 on a JA-106 sends the override's code
packet `80 08 03 30 34 33 32 31` in front of `80 02 0d 90`, rather than the
bare command. -/
theorem C5_counterexample :
    modify_alarm_control_panel_section_state "1111" "JA-106" 1
        STATE_ALARM_DISARMED (some "4321") =
      some [0x80, 0x08, 0x03, 0x30, 0x34, 0x33, 0x32, 0x31, 0x80, 0x02, 0x0d, 0x90] ∧
    modify_alarm_control_panel_section_state "1111" "JA-106" 1
        STATE_ALARM_DISARMED (some "4321") ≠
      some [0x80, 0x02, 0x0d, 0x90] := by
  decide

/-- C5 (amended): the arm/disarm operation sends `80 02 0d` followed by one
byte equal to `actionBase + sectionNumber`, with actionBase 143 for disarm,
159 for arm-away and 175 for arm-night, and a code packet always precedes
the command: it encodes the caller's override when one is supplied and the
configured password otherwise. -/
theorem C5_arm_disarm_packet :
    (int_packets STATE_ALARM_DISARMED = some 143 ∧
     int_packets STATE_ALARM_ARMED_AWAY = some 159 ∧
     int_packets STATE_ALARM_ARMED_NIGHT = some 175) ∧
    ∀ (configCode model : String) (sectionNumber : Nat) (state : String)
      (code : Option String) (base : Nat) (code_packet : List Nat),
      int_packets state = some base →
      create_code_packet model (code.getD configCode) = some code_packet →
      base + sectionNumber ≤ 255 →
      modify_alarm_control_panel_section_state configCode model sectionNumber state code =
        some (code_packet ++ [0x80, 0x02, 0x0d] ++ [base + sectionNumber]) := by
  refine ⟨⟨by decide, by decide, by decide⟩, ?_⟩
  intro configCode model sectionNumber state code base code_packet hbase hcp hle
  unfold modify_alarm_control_panel_section_state
  simp only [hbase, Option.some_bind, int_to_bytes_nat_of_le base sectionNumber hle, hcp]
  rfl

/-- C5 (witness): the amended theorem applied to disarming section 1 with an
override code. -/
theorem C5_arm_disarm_packet_witness :
    modify_alarm_control_panel_section_state "1111" "JA-106" 1
        STATE_ALARM_DISARMED (some "4321") =
      some ([0x80, 0x08, 0x03, 0x30, 0x34, 0x33, 0x32, 0x31] ++
        [0x80, 0x02, 0x0d] ++ [143 + 1]) :=
  C5_arm_disarm_packet.2 "1111" "JA-106" 1 STATE_ALARM_DISARMED (some "4321")
    143 [0x80, 0x08, 0x03, 0x30, 0x34, 0x33, 0x32, 0x31]
    (by decide) (by decide) (by decide)

/-- C10: the single-byte encoder `_int_to_bytes` is defined exactly for
integers in `0 .. 255`, and — given a decodable desired state and a
well-formed access code — the arm/disarm operation produces a packet exactly
when `actionBase + sectionNumber ≤ 255`; for larger section numbers the
encoding step raises `OverflowError` (the operation yields `none`) instead
of producing a command. -/
theorem C10_state_packet_overflow :
    (∀ number : Int, (int_to_bytes number).isSome = true ↔ 0 ≤ number ∧ number ≤ 255) ∧
    ∀ (configCode model : String) (sectionNumber : Nat) (state : String)
      (code : Option String) (base : Nat),
      int_packets state = some base →
      (create_code_packet model (code.getD configCode)).isSome = true →
      ((modify_alarm_control_panel_section_state configCode model sectionNumber
          state code).isSome = true ↔
        base + sectionNumber ≤ 255) := by
  constructor
  · intro number
    unfold int_to_bytes
    by_cases h : 0 ≤ number ∧ number ≤ 255
    · rw [if_pos h]
      simpa using h
    · rw [if_neg h]
      simpa using h
  · intro configCode model sectionNumber state code base hbase hcp
    obtain ⟨code_packet, hcp'⟩ := Option.isSome_iff_exists.mp hcp
    unfold modify_alarm_control_panel_section_state
    by_cases hle : base + sectionNumber ≤ 255
    · simp only [hbase, Option.some_bind,
        int_to_bytes_nat_of_le base sectionNumber hle, hcp']
      simp [hle]
    · simp only [hbase, Option.some_bind,
        int_to_bytes_nat_of_gt base sectionNumber (by omega)]
      simp
      omega

/-- C10 (witness): arming section 81 for the night (action base 175) hits the
overflow boundary check. -/
theorem C10_state_packet_overflow_witness :
    (modify_alarm_control_panel_section_state "1234" "JA-101" 81
        STATE_ALARM_ARMED_NIGHT none).isSome = true ↔ 175 + 81 ≤ 255 :=
  C10_state_packet_overflow.2 "1234" "JA-101" 81 STATE_ALARM_ARMED_NIGHT none 175
    (by decide) (by decide)

/-! ## C2: single-device state packets -/

theorem create_device_sensor_id_ne_problem_id (n : Nat) :
    create_device_sensor_id n ≠ create_device_problem_sensor_id n := by
  intro h
  have hlen := congrArg String.length h
  rw [create_device_sensor_id, create_device_problem_sensor_id,
    String.length_append, String.length_append] at hlen
  have h1 : ("device_sensor_" : String).length = 14 := by decide
  have h2 : ("device_problem_sensor_" : String).length = 22 := by decide
  omega

theorem off_before_on_comm (ra B : Int) :
    (if ra = B + 2 then some STATE_OFF
     else if ra = B ∨ ra = B + 1 then some STATE_ON
     else none) =
    (if ra = B ∨ ra = B + 1 then some STATE_ON
     else if ra = B + 2 then some STATE_OFF
     else none) := by
  by_cases h1 : ra = B + 2
  · have h2 : ¬ (ra = B ∨ ra = B + 1) := by rintro (h | h) <;> omega
    rw [if_pos h1, if_neg h2, if_pos h1]
  · by_cases h2 : ra = B ∨ ra = B + 1
    · rw [if_neg h1, if_pos h2, if_pos h2]
    · rw [if_neg h1, if_neg h2, if_neg h2, if_neg h1]

/-- C2: in a single-device state packet the device number is the quotient by
64 of the little-endian 16-bit value at bytes 4-5; with correction 0 for
`n ≤ 32`, −64 for `33 ≤ n ≤ 96`, −128 for `n > 96` and
`base = (n + correction) * 4 + 104`, a state-code byte equal to `base` or
`base + 1` decodes to "on", `base + 2` to "off", and any other value to
unknown (`none`), in which case processing the packet leaves the device's
stored sensor state unchanged. -/
theorem C2_device_state_decoding (p1 b2 raw lo hi : Nat) (rest : List Nat) :
    parse_device_number_from_state_packet
        (0x55 :: p1 :: b2 :: raw :: lo :: hi :: rest) = (lo + 256 * hi) / 64 ∧
    (∀ n : Nat,
      convert_jablotron_device_state_to_state
          (0x55 :: p1 :: b2 :: raw :: lo :: hi :: rest) n =
        (let correction : Int :=
           if n ≤ 32 then 0 else if 33 ≤ n ∧ n ≤ 96 then -64 else -128
         let base : Int := ((n : Int) + correction) * 4 + 104
         if (raw : Int) = base ∨ (raw : Int) = base + 1 then some STATE_ON
         else if (raw : Int) = base + 2 then some STATE_OFF
         else none)) ∧
    (∀ st : StateStore,
      convert_jablotron_device_state_to_state
          (0x55 :: p1 :: b2 :: raw :: lo :: hi :: rest)
          (parse_device_number_from_state_packet
            (0x55 :: p1 :: b2 :: raw :: lo :: hi :: rest)) = none →
      lookupState
          (parse_device_state_packet st
            (0x55 :: p1 :: b2 :: raw :: lo :: hi :: rest)).states
          (create_device_sensor_id
            (parse_device_number_from_state_packet
              (0x55 :: p1 :: b2 :: raw :: lo :: hi :: rest))) =
        lookupState st.states
          (create_device_sensor_id
            (parse_device_number_from_state_packet
              (0x55 :: p1 :: b2 :: raw :: lo :: hi :: rest)))) := by
  refine ⟨rfl, ?_, ?_⟩
  · intro n
    unfold convert_jablotron_device_state_to_state
    dsimp only
    have hcorr : (if n ≤ 32 then (0 : Int) else if n ≤ 96 then -64 else -128) =
        (if n ≤ 32 then (0 : Int) else if 33 ≤ n ∧ n ≤ 96 then -64 else -128) := by
      split_ifs <;> first | rfl | omega
    rw [hcorr]
    exact off_before_on_comm _ _
  · intro st hnone
    unfold parse_device_state_packet
    dsimp only
    rw [hnone]
    unfold update_state
    by_cases h : lookupState st.states
        (create_device_problem_sensor_id
          (parse_device_number_from_state_packet
            (0x55 :: p1 :: b2 :: raw :: lo :: hi :: rest))) =
        some (convert_jablotron_device_state_to_problem_sensor_state
          (0x55 :: p1 :: b2 :: raw :: lo :: hi :: rest))
    · rw [if_pos h]
    · rw [if_neg h]
      exact lookupState_setState_other _ _ _ _ (create_device_sensor_id_ne_problem_id _)

/-- C2 (witness): the unknown state code 0 for device 1 (16-bit value 64)
decodes to `none` and leaves the stored device sensor state "on" unchanged. -/
theorem C2_device_state_decoding_witness :
    lookupState
        (parse_device_state_packet ⟨[("device_sensor_1", "on")], [], []⟩
          [0x55, 0x08, 0x00, 0x00, 0x40, 0x00]).states
        (create_device_sensor_id
          (parse_device_number_from_state_packet
            [0x55, 0x08, 0x00, 0x00, 0x40, 0x00])) =
      lookupState [("device_sensor_1", "on")]
        (create_device_sensor_id
          (parse_device_number_from_state_packet
            [0x55, 0x08, 0x00, 0x00, 0x40, 0x00])) :=
  (C2_device_state_decoding 0x08 0x00 0x00 0x40 0x00 []).2.2
    ⟨[("device_sensor_1", "on")], [], []⟩ (by decide)

/-! ## C3: section enumeration -/

theorem parse_go_keys_no_sentinel (packet : List Nat) :
    ∀ (fuel start : Nat),
      (∀ s, start ≤ s → s < start + fuel →
        section_state_slice packet s ≠ [0x07, 0x00]) →
      (parse_sections_states_go packet fuel start).map Prod.fst =
        List.range' start fuel := by
  intro fuel
  induction fuel with
  | zero => intro start h; simp [parse_sections_states_go]
  | succ fuel ih =>
    intro start h
    simp only [parse_sections_states_go]
    rw [if_neg (h start (Nat.le_refl _) (by omega))]
    rw [List.range'_succ]
    simp only [List.map_cons]
    rw [ih (start + 1) (fun s h1 h2 => h s (by omega) (by omega))]

theorem parse_go_keys_sentinel (packet : List Nat) :
    ∀ (fuel start k : Nat), start ≤ k → k < start + fuel →
      section_state_slice packet k = [0x07, 0x00] →
      (∀ s, start ≤ s → s < k → section_state_slice packet s ≠ [0x07, 0x00]) →
      (parse_sections_states_go packet fuel start).map Prod.fst =
        List.range' start (k - start) := by
  intro fuel
  induction fuel with
  | zero => intro start k hk1 hk2 hsent hfirst; exact absurd hk2 (by omega)
  | succ fuel ih =>
    intro start k hk1 hk2 hsent hfirst
    simp only [parse_sections_states_go]
    by_cases h : start = k
    · subst h
      rw [if_pos hsent]
      simp
    · rw [if_neg (hfirst start (Nat.le_refl _) (by omega))]
      have hks : k - start = (k - (start + 1)) + 1 := by omega
      rw [hks, List.range'_succ]
      simp only [List.map_cons]
      rw [ih (start + 1) k (by omega) (by omega) hsent
        (fun s h1 h2 => hfirst s (by omega) h2)]

/-- C3 (counterexample): with a maximum section count of 15, a reply packet
whose first `07 00` sentinel sits at slot 17 registers 15 sections, not the
16 = k − 1 the claim requires. -/
theorem C3_counterexample :
    first_sentinel_slot
        ([0x51, 0x22] ++ (List.replicate 16 [1, 1]).flatten ++ [0x07, 0x00]) =
      some 17 ∧
    (parse_sections_states_packet 15
        ([0x51, 0x22] ++ (List.replicate 16 [1, 1]).flatten ++ [0x07, 0x00])).length = 15 ∧
    (parse_sections_states_packet 15
        ([0x51, 0x22] ++ (List.replicate 16 [1, 1]).flatten ++ [0x07, 0x00])).length ≠
      17 - 1 := by
  refine ⟨by decide, by decide, by decide⟩

/-- C3 (amended): when the first `07 00` sentinel occupies slot `k`, parsing
registers exactly `min (k − 1) maxSections` sections, numbered contiguously
from 1 (so never a section numbered `k` or above); when no sentinel occurs in
slots `1 .. maxSections`, exactly `maxSections` sections are registered. -/
theorem C3_section_enumeration (maxSections : Nat) (packet : List Nat) :
    (∀ k, 1 ≤ k → section_state_slice packet k = [0x07, 0x00] →
      (∀ s, 1 ≤ s → s < k → section_state_slice packet s ≠ [0x07, 0x00]) →
      (parse_sections_states_packet maxSections packet).map Prod.fst =
        List.range' 1 (min (k - 1) maxSections)) ∧
    ((∀ s, 1 ≤ s → s ≤ maxSections →
        section_state_slice packet s ≠ [0x07, 0x00]) →
      (parse_sections_states_packet maxSections packet).map Prod.fst =
        List.range' 1 maxSections) := by
  constructor
  · intro k hk hsent hfirst
    by_cases hcase : k ≤ maxSections
    · rw [Nat.min_eq_left (by omega)]
      have := parse_go_keys_sentinel packet maxSections 1 k hk (by omega) hsent
        (fun s h1 h2 => hfirst s h1 h2)
      simpa [parse_sections_states_packet] using this
    · rw [Nat.min_eq_right (by omega)]
      have := parse_go_keys_no_sentinel packet maxSections 1
        (fun s h1 h2 => hfirst s h1 (by omega))
      simpa [parse_sections_states_packet] using this
  · intro h
    have := parse_go_keys_no_sentinel packet maxSections 1
      (fun s h1 h2 => h s h1 (by omega))
    simpa [parse_sections_states_packet] using this

/-- C3 (witness): the amended theorem applied to a packet with the sentinel
at slot 2 and a maximum of 3 sections: exactly section 1 is registered. -/
theorem C3_section_enumeration_witness :
    (parse_sections_states_packet 3 [0, 0, 1, 1, 0x07, 0x00]).map Prod.fst =
      List.range' 1 (min (2 - 1) 3) :=
  (C3_section_enumeration 3 [0, 0, 1, 1, 0x07, 0x00]).1 2 (by omega) (by decide)
    (fun s h1 h2 => by
      have hs : s = 1 := by omega
      subst hs
      decide)

/-! ## C6: bit-vector decoding -/

theorem lsb_bits_go_getD :
    ∀ (fuel n : Nat), n ≤ fuel → ∀ i : Nat,
      (lsb_bits_go fuel n).getD i false = n.testBit i := by
  intro fuel
  induction fuel with
  | zero =>
    intro n hn i
    have h0 : n = 0 := by omega
    subst h0
    simp [lsb_bits_go]
  | succ fuel ih =>
    intro n hn i
    by_cases h0 : n = 0
    · subst h0
      simp [lsb_bits_go]
    · simp only [lsb_bits_go, if_neg h0]
      rcases i with _ | i
      · simp
      · simp only [List.getD_cons_succ]
        rw [ih (n / 2) (by omega) i, Nat.testBit_add_one]

theorem lsb_bits_getD (n i : Nat) : (lsb_bits n).getD i false = n.testBit i :=
  lsb_bits_go_getD n n (Nat.le_refl n) i

theorem lsb_bits_go_lt :
    ∀ (fuel n : Nat), n ≤ fuel → n < 2 ^ (lsb_bits_go fuel n).length := by
  intro fuel
  induction fuel with
  | zero =>
    intro n hn
    have h0 : n = 0 := by omega
    subst h0
    simp [lsb_bits_go]
  | succ fuel ih =>
    intro n hn
    by_cases h0 : n = 0
    · subst h0
      simp [lsb_bits_go]
    · simp only [lsb_bits_go, if_neg h0, List.length_cons]
      have ihn := ih (n / 2) (by omega)
      have hp : 2 ^ ((lsb_bits_go fuel (n / 2)).length + 1) =
          2 * 2 ^ (lsb_bits_go fuel (n / 2)).length := by ring
      omega

theorem lsb_bits_lt (n : Nat) : n < 2 ^ (lsb_bits n).length :=
  lsb_bits_go_lt n n (Nat.le_refl n)

theorem lsb_bits_go_length_le :
    ∀ (fuel n k : Nat), n ≤ fuel → n < 2 ^ k → (lsb_bits_go fuel n).length ≤ k := by
  intro fuel
  induction fuel with
  | zero =>
    intro n k hn h
    have h0 : n = 0 := by omega
    subst h0
    simp [lsb_bits_go]
  | succ fuel ih =>
    intro n k hn h
    by_cases h0 : n = 0
    · subst h0
      simp [lsb_bits_go]
    · simp only [lsb_bits_go, if_neg h0, List.length_cons]
      have hk : 1 ≤ k := by
        rcases k with _ | k
        · exfalso
          simp at h
          omega
        · omega
      have hsplit : 2 ^ k = 2 * 2 ^ (k - 1) := by
        conv_lhs => rw [show k = (k - 1) + 1 by omega]
        ring
      have h2 : n / 2 < 2 ^ (k - 1) := by omega
      have := ih (n / 2) (k - 1) (by omega) h2
      omega

theorem lsb_bits_length_le (n k : Nat) (h : n < 2 ^ k) : (lsb_bits n).length ≤ k :=
  lsb_bits_go_length_le n n k (Nat.le_refl n) h

theorem bytes_to_int_lt : ∀ hex : List Nat, (∀ b ∈ hex, b < 256) →
    bytes_to_int hex < 2 ^ (hex.length * 8)
  | [], _ => by simp [bytes_to_int]
  | b :: rest, h => by
    have hb := h b (List.mem_cons_self b rest)
    have ih := bytes_to_int_lt rest (fun x hx => h x (List.mem_cons_of_mem b hx))
    rw [bytes_to_int]
    simp only [List.length_cons]
    have hpow : 2 ^ ((rest.length + 1) * 8) = 2 ^ (rest.length * 8) * 256 := by
      rw [show (rest.length + 1) * 8 = rest.length * 8 + 8 by ring, pow_add]
      norm_num
    omega

theorem testBit_bytes_to_int : ∀ hex : List Nat, (∀ b ∈ hex, b < 256) →
    ∀ i : Nat, (bytes_to_int hex).testBit i = (hex.getD (i / 8) 0).testBit (i % 8)
  | [], _, i => by simp [bytes_to_int]
  | b :: rest, h, i => by
    have hb := h b (List.mem_cons_self b rest)
    have ih := testBit_bytes_to_int rest (fun x hx => h x (List.mem_cons_of_mem b hx))
    rw [bytes_to_int]
    have hrw : b + 256 * bytes_to_int rest = 2 ^ 8 * bytes_to_int rest + b := by ring
    rw [hrw, Nat.testBit_mul_pow_two_add (bytes_to_int rest) (by omega : b < 2 ^ 8) i]
    by_cases hi : i < 8
    · rw [if_pos hi]
      rw [show i / 8 = 0 by omega, show i % 8 = i by omega]
      simp
    · rw [if_neg hi]
      rw [ih (i - 8)]
      rw [show i / 8 = (i - 8) / 8 + 1 by omega, show i % 8 = (i - 8) % 8 by omega]
      simp

theorem py_bin_lt (n : Nat) : n < 2 ^ (py_bin n).length := by
  unfold py_bin
  by_cases h0 : n = 0
  · subst h0
    simp
  · rw [if_neg h0]
    simp only [List.length_map, List.length_reverse]
    exact lsb_bits_lt n

theorem py_bin_reverse_getElem (n i : Nat) :
    ((py_bin n).reverse)[i]? =
      if i < (py_bin n).length then
        some (if n.testBit i then '1' else '0')
      else none := by
  by_cases h0 : n = 0
  · subst h0
    rcases i with _ | i
    · simp [py_bin]
    · simp [py_bin]
  · unfold py_bin
    rw [if_neg h0]
    rw [List.map_reverse, List.reverse_reverse]
    simp only [List.length_reverse, List.length_map]
    rw [List.getElem?_map]
    by_cases hil : i < (lsb_bits n).length
    · rw [List.getElem?_eq_getElem hil, if_pos hil]
      have hvl : (lsb_bits n)[i] = n.testBit i := by
        have h1 := lsb_bits_getD n i
        rw [List.getD_eq_getElem?_getD, List.getElem?_eq_getElem hil] at h1
        simpa using h1
      simp [hvl]
    · rw [List.getElem?_eq_none (Nat.le_of_not_lt hil), if_neg hil]
      rfl

/-- C6 (counterexample): on the byte pair `01 00` the source decoder (native
little-endian interpretation) and the spec's big-endian description disagree,
so the claim's "big-endian" reading is false for the code. -/
theorem C6_counterexample :
    hex_to_bin [0x01, 0x00] ≠ spec_hex_to_bin_big_endian [0x01, 0x00] := by
  decide

/-- C6 (amended): the bit-vector decode interprets the byte range as a
native-order (little-endian) unsigned integer, renders it in binary
left-padded with zeros to exactly `8 * L` bits and reverses the string;
consequently, for a nonempty range of bytes, the character at 0-based index
`i` of the result is `'1'` exactly when bit `i mod 8` of byte `i / 8` is set
(the poll loop reads the 0-based index `i` for device `i`). -/
theorem C6_bit_vector_decoding (hex : List Nat) (h : ∀ b ∈ hex, b < 256)
    (hne : hex ≠ []) :
    hex_to_bin hex =
      (List.range (hex.length * 8)).map
        (fun i => if (hex.getD (i / 8) 0).testBit (i % 8) then '1' else '0') := by
  have hbit := testBit_bytes_to_int hex h
  have hdecl : bytes_to_int hex < 2 ^ (hex.length * 8) := bytes_to_int_lt hex h
  have hlen : (py_bin (bytes_to_int hex)).length ≤ hex.length * 8 := by
    unfold py_bin
    by_cases h0 : bytes_to_int hex = 0
    · rw [if_pos h0]
      have : 1 ≤ hex.length := by
        rcases hex with _ | ⟨b, rest⟩
        · exact absurd rfl hne
        · simp
      simp
      omega
    · rw [if_neg h0]
      simp only [List.length_map, List.length_reverse]
      exact lsb_bits_length_le _ _ hdecl
  have hstruct : hex_to_bin hex =
      (py_bin (bytes_to_int hex)).reverse ++
        List.replicate (hex.length * 8 - (py_bin (bytes_to_int hex)).length) '0' := by
    unfold hex_to_bin zfill
    rw [List.reverse_append, List.reverse_replicate]
  rw [hstruct]
  apply List.ext_getElem?
  intro i
  rw [List.getElem?_map]
  by_cases hiL : i < hex.length * 8
  · rw [List.getElem?_range hiL]
    by_cases hil : i < (py_bin (bytes_to_int hex)).length
    · rw [List.getElem?_append_left (by simpa using hil)]
      rw [py_bin_reverse_getElem, if_pos hil, hbit i]
      rfl
    · rw [List.getElem?_append_right (by simpa using Nat.le_of_not_lt hil)]
      simp only [List.length_reverse]
      rw [List.getElem?_replicate, if_pos (by omega)]
      have hfalse : (bytes_to_int hex).testBit i = false := by
        apply Nat.testBit_lt_two_pow
        calc bytes_to_int hex < 2 ^ (py_bin (bytes_to_int hex)).length := py_bin_lt _
          _ ≤ 2 ^ i := Nat.pow_le_pow_right (by omega) (by omega)
      have hbyte : (hex.getD (i / 8) 0).testBit (i % 8) = false := by
        rw [← hbit i]
        exact hfalse
      show some '0' = some (if (hex.getD (i / 8) 0).testBit (i % 8) then '1' else '0')
      rw [hbyte]
      rfl
  · rw [List.getElem?_eq_none (l := List.range (hex.length * 8))
      (by simpa using Nat.le_of_not_lt hiL)]
    rw [List.getElem?_eq_none]
    · rfl
    · simp only [List.length_append, List.length_reverse, List.length_replicate]
      omega

/-- C6 (witness): the amended characterization applied to the byte pair
`01 00`. -/
theorem C6_bit_vector_decoding_witness :
    hex_to_bin [0x01, 0x00] =
      (List.range (([0x01, 0x00] : List Nat).length * 8)).map
        (fun i => if (([0x01, 0x00] : List Nat).getD (i / 8) 0).testBit (i % 8)
          then '1' else '0') :=
  C6_bit_vector_decoding [0x01, 0x00] (by decide) (by decide)

/-! ## C9: discovery error taxonomy -/

/-- C9: evaluating the embedded `check_serial_port` on the failing input (no
model packet arrives before the timeout, no I/O error): the call ends in the
executor's timeout error, not in `ModelNotDetected` as the claim states —
the source's `raise ModelNotDetected` is unreachable because
`reader.result(TIMEOUT)` raises instead of returning `None`. -/
theorem C9_timeout_is_not_model_not_detected :
    check_serial_port false [] = CheckOutcome.timeoutError ∧
    check_serial_port false [] ≠ CheckOutcome.modelNotDetected := by
  refine ⟨rfl, by decide⟩

end Jablotron100
